import Mathlib

/-!
Verification of the virtcontainers QEMU hypervisor driver layer.

The data model and the operations are embedded shallowly: the driver source
is modelled from the specification (the repository ships only the test file
`qemu_test.go` for the driver), while every concrete constant visible in the
test file (the base kernel parameter block, the debug and non-debug blocks,
device field values) is taken from that test file verbatim.
-/

set_option maxRecDepth 8000

namespace Virtcontainers

/-- An ordered key/value kernel parameter, as in the `Param` struct used by
`qemu_test.go` (fields `Key` and `Value`). -/
structure Param where
  key : String
  value : String
  deriving Repr, DecidableEq

/-- Static hypervisor configuration, as built by `newQemuConfig` in
`qemu_test.go`: paths to kernel image, guest image and hypervisor binary,
default VCPU count, default memory size (MiB), default bridge count,
user-supplied kernel parameters and a debug flag. -/
structure HypervisorConfig where
  kernelPath : String := ""
  imagePath : String := ""
  hypervisorPath : String := ""
  defaultVCPUs : Nat := 0
  defaultMemSz : Nat := 0
  defaultBridges : Nat := 0
  kernelParams : List Param := []
  debug : Bool := false
  deriving Repr, DecidableEq

/-- Space-join of a token list, the shallow embedding of Go's
`strings.Join(tokens, " ")`. -/
def joinWords : List String → String
  | [] => ""
  | [w] => w
  | w :: ws => w ++ " " ++ joinWords ws

/-- Modelled from the spec: the fixed base block of kernel parameter tokens
(§4.1 step 1) of the missing `qemu.go`; the tokens are those of the string
constant `testQemuKernelParamsBase` in `qemu_test.go`. -/
def qemuKernelParamsBase : List String :=
  [ "root=/dev/pmem0p1"
  , "rootflags=dax,data=ordered,errors=remount-ro"
  , "rw"
  , "rootfstype=ext4"
  , "tsc=reliable"
  , "no_timer_check"
  , "rcupdate.rcu_expedited=1"
  , "i8042.direct=1"
  , "i8042.dumbkbd=1"
  , "i8042.nopnp=1"
  , "i8042.noaux=1"
  , "noreplace-smp"
  , "reboot=k"
  , "panic=1"
  , "console=hvc0"
  , "console=hvc1"
  , "initcall_debug"
  , "iommu=off"
  , "cryptomgr.notests"
  , "net.ifnames=0"
  , "pci=lastbus=0" ]

/-- Modelled from the spec: the quiet (non-debug) kernel parameter block
(§4.1 step 2) of the missing `qemu.go`; the tokens are those of
`testQemuKernelParamsNonDebug` in `qemu_test.go`. -/
def qemuKernelParamsNonDebug : List String :=
  ["quiet", "systemd.show_status=false"]

/-- Modelled from the spec: the verbose (debug) kernel parameter block
(§4.1 step 2) of the missing `qemu.go`; the tokens are those of
`testQemuKernelParamsDebug` in `qemu_test.go`. -/
def qemuKernelParamsDebug : List String :=
  ["debug", "systemd.show_status=true", "systemd.log_level=debug"]

/-- The base-block string constant `testQemuKernelParamsBase` of
`qemu_test.go` (line 63). -/
def testQemuKernelParamsBase : String :=
  "root=/dev/pmem0p1 rootflags=dax,data=ordered,errors=remount-ro rw rootfstype=ext4 tsc=reliable no_timer_check rcupdate.rcu_expedited=1 i8042.direct=1 i8042.dumbkbd=1 i8042.nopnp=1 i8042.noaux=1 noreplace-smp reboot=k panic=1 console=hvc0 console=hvc1 initcall_debug iommu=off cryptomgr.notests net.ifnames=0 pci=lastbus=0"

/-- The quiet-block string constant `testQemuKernelParamsNonDebug` of
`qemu_test.go` (line 64). -/
def testQemuKernelParamsNonDebug : String :=
  "quiet systemd.show_status=false"

/-- The verbose-block string constant `testQemuKernelParamsDebug` of
`qemu_test.go` (line 65). -/
def testQemuKernelParamsDebug : String :=
  "debug systemd.show_status=true systemd.log_level=debug"

/-- Rendering of one user-supplied kernel parameter as `key=value`
(§4.1 step 3). -/
def renderParam (p : Param) : String :=
  p.key ++ "=" ++ p.value

/-- Modelled from the spec: `buildKernelParams` of the missing `qemu.go`
(§4.1): the base block, then the debug-dependent block, then the
user-supplied parameters rendered `key=value` in order; it fails only on an
internal invariant violation, never under normal input, hence always
succeeds here. -/
def buildKernelParams (config : HypervisorConfig) : Except String (List String) :=
  Except.ok
    (qemuKernelParamsBase
      ++ (if config.debug then qemuKernelParamsDebug else qemuKernelParamsNonDebug)
      ++ config.kernelParams.map renderParam)

namespace Govmm

/-- Device driver tags of the govmm device model referenced by
`qemu_test.go` (`Virtio9P`, `VirtioSerialPort`, `Console`, `VirtioSerial`,
`VirtioBlock`, `NVDIMM`). -/
inductive DeviceDriver
  | Virtio9P
  | VirtioSerialPort
  | Console
  | VirtioSerial
  | VirtioBlock
  | NVDIMM
  deriving Repr, DecidableEq

/-- The govmm filesystem driver tag (`Local`) referenced by `qemu_test.go`. -/
inductive FSDriverKind
  | Local
  deriving Repr, DecidableEq

/-- The govmm character-device backend tag (`Socket`) referenced by
`qemu_test.go`. -/
inductive CharBackend
  | Socket
  deriving Repr, DecidableEq

/-- The govmm 9p security model tag (`None`) referenced by `qemu_test.go`. -/
inductive SecModel
  | None
  deriving Repr, DecidableEq

/-- The govmm asynchronous I/O mode tag (`Threads`) referenced by
`qemu_test.go`. -/
inductive BlockAIOKind
  | Threads
  deriving Repr, DecidableEq

/-- A govmm filesystem-share device, fields as used in `qemu_test.go`. -/
structure FSDevice where
  driver : DeviceDriver
  fsdriver : FSDriverKind
  id : String
  path : String
  mountTag : String
  securityModel : SecModel
  disableModern : Bool
  deriving Repr, DecidableEq

/-- A govmm character device, fields as used in `qemu_test.go`. -/
structure CharDevice where
  driver : DeviceDriver
  backend : CharBackend
  deviceID : String
  id : String
  path : String
  name : String := ""
  deriving Repr, DecidableEq

/-- A govmm serial controller device, fields as used in `qemu_test.go`. -/
structure SerialDevice where
  driver : DeviceDriver
  id : String
  disableModern : Bool
  deriving Repr, DecidableEq

/-- A govmm block device, fields as used in `qemu_test.go` (the format and
interface fields are carried as strings, as govmm renders them). -/
structure BlockDevice where
  driver : DeviceDriver
  id : String
  file : String
  aio : BlockAIOKind
  format : String
  interface : String
  disableModern : Bool
  deriving Repr, DecidableEq

/-- The closed sum of govmm device descriptors appearing in the device
list of `qemu_test.go`. -/
inductive Device
  | fs (d : FSDevice)
  | char (d : CharDevice)
  | serial (d : SerialDevice)
  | block (d : BlockDevice)
  deriving Repr, DecidableEq

/-- The disable-legacy-negotiation flag of a device, when that device kind
carries one: filesystem-share, block, and serial devices carry the flag;
character devices do not (their govmm struct has no such field in
`qemu_test.go`). -/
def Device.disableModernFlag : Device → Option Bool
  | .fs d => some d.disableModern
  | .block d => some d.disableModern
  | .serial d => some d.disableModern
  | .char _ => none

/-- A govmm machine, carrying its machine type string (govmm's `Machine.Type`
as used by `qemu_test.go`). -/
structure Machine where
  type : String
  deriving Repr, DecidableEq

/-- A govmm memory configuration: size string, hotplug slot count, and
maximum-memory bound string, as used in `qemu_test.go`. -/
structure Memory where
  size : String
  slots : Nat
  maxMem : String
  deriving Repr, DecidableEq

end Govmm

/-- A Volume: mount tag and host path (`qemu_test.go`). -/
structure Volume where
  mountTag : String
  hostPath : String
  deriving Repr, DecidableEq

/-- A Socket: device ID, character-device ID, host socket path, symbolic
name (`qemu_test.go`). -/
structure Socket where
  deviceID : String
  id : String
  hostPath : String
  name : String
  deriving Repr, DecidableEq

/-- A Drive: file path, format, device ID (`qemu_test.go`). -/
structure Drive where
  file : String
  format : String
  id : String
  deriving Repr, DecidableEq

/-- A container configuration: identifier and root filesystem path
(`qemu_test.go`). -/
structure ContainerConfig where
  id : String
  rootFs : String
  deriving Repr, DecidableEq

/-- A resource request: desired VCPU count and memory size in MiB
(`qemu_test.go`). -/
structure Resources where
  vcpus : Nat := 0
  memory : Nat := 0
  deriving Repr, DecidableEq

/-- A pod configuration: identifier, embedded hypervisor configuration,
resource request, declared volumes and containers (`qemu_test.go`). -/
structure PodConfig where
  id : String := ""
  hypervisorConfig : HypervisorConfig := {}
  vmConfig : Resources := {}
  volumes : List Volume := []
  containers : List ContainerConfig := []
  deriving Repr, DecidableEq

/-- The qemu driver state: the live `HypervisorConfig`, the nested-run flag,
the resolved hypervisor binary path, the built kernel parameter token list,
the configured machine type (govmm `qemuConfig.Machine.Type`) and the device
list (govmm `qemuConfig.Devices`), the fields of the `qemu` struct used by
`qemu_test.go`. -/
structure Qemu where
  config : HypervisorConfig := {}
  nestedRun : Bool := false
  path : String := ""
  kernelParams : List String := []
  machineType : String := ""
  devices : List Govmm.Device := []
  deriving Repr, DecidableEq

/-- Modelled from the spec: the run-storage root directory constant
(`runStoragePath`) of the missing driver source; the spec fixes only that it
is a constant path `<run-storage-root>`, not its concrete value. -/
def runStoragePath : String := "/run/virtcontainers/pods"

/-- Modelled from the spec: the default console socket name constant
(`defaultConsole`) of the missing driver source; the spec fixes only that it
is a constant `<default-console-name>`, not its concrete value. -/
def defaultConsole : String := "console.sock"

/-- Modelled from the spec: `getPodConsole` of the missing `qemu.go` (§4.5):
the pod's console socket path `<run-storage-root>/<pod-id>/<default-console-name>`,
a pure function of its inputs. -/
def getPodConsole (podID : String) : String :=
  runStoragePath ++ "/" ++ podID ++ "/" ++ defaultConsole

/-- Modelled from the spec: the fixed closed set of supported machine types
of the missing `qemu.go` (§4.4): a "lite" variant, a standard PC-class
variant and a Q35 variant, the three strings accepted by
`TestQemuMachineTypes`. -/
def supportedQemuMachines : List Govmm.Machine :=
  [{ type := "pc-lite" }, { type := "pc" }, { type := "q35" }]

/-- Modelled from the spec: `getMachine` of the missing `qemu.go` (§4.4):
case-sensitive exact match of the requested machine type against the fixed
closed set, an error for any other string. -/
def getMachine (machineType : String) : Except String Govmm.Machine :=
  match supportedQemuMachines.find? (fun m => m.type == machineType) with
  | some m => Except.ok m
  | none => Except.error ("unrecognised machine type: " ++ machineType)

/-- The capability set of a machine type; the only modelled capability is
block-device hotplug support (`qemu_test.go`, `TestQemuBlockHotplugCapabilities`). -/
structure Capabilities where
  blockDeviceHotplugSupport : Bool := false
  deriving Repr, DecidableEq

/-- The block-device hotplug capability query used by
`TestQemuBlockHotplugCapabilities`. -/
def Capabilities.isBlockDeviceHotplugSupported (c : Capabilities) : Bool :=
  c.blockDeviceHotplugSupport

/-- Modelled from the spec: `capabilities` of the missing `qemu.go` (§4.4):
derived purely from the machine type stored in the VM configuration; exactly
the `"pc"` machine type supports block-device hotplug. -/
def Qemu.capabilities (q : Qemu) : Capabilities :=
  if q.machineType == "pc" then { blockDeviceHotplugSupport := true } else {}

/-- The filesystem-share device built for one volume: virtio-9p driver,
local filesystem driver, ID `"extra-9p-" ++ tag`, security model none,
disable-modern flag from the nested-run flag (expected output of
`TestQemuAppendVolume`). -/
def fsDeviceOfVolume (nestedRun : Bool) (volume : Volume) : Govmm.Device :=
  Govmm.Device.fs
    { driver := Govmm.DeviceDriver.Virtio9P
    , fsdriver := Govmm.FSDriverKind.Local
    , id := "extra-9p-" ++ volume.mountTag
    , path := volume.hostPath
    , mountTag := volume.mountTag
    , securityModel := Govmm.SecModel.None
    , disableModern := nestedRun }

/-- Modelled from the spec: `appendVolume` of the missing `qemu.go` (§4.2):
appends the volume's filesystem-share device to the device list. -/
def appendVolume (q : Qemu) (devices : List Govmm.Device) (volume : Volume) :
    List Govmm.Device :=
  devices ++ [fsDeviceOfVolume q.nestedRun volume]

/-- Modelled from the spec: `appendSocket` of the missing `qemu.go` (§4.2):
appends a character device with serial transport and socket backend carrying
the socket's fields verbatim (expected output of `TestQemuAppendSocket`). -/
def appendSocket (q : Qemu) (devices : List Govmm.Device) (socket : Socket) :
    List Govmm.Device :=
  devices ++
    [Govmm.Device.char
      { driver := Govmm.DeviceDriver.VirtioSerialPort
      , backend := Govmm.CharBackend.Socket
      , deviceID := socket.deviceID
      , id := socket.id
      , path := socket.hostPath
      , name := socket.name }]

/-- Modelled from the spec: `appendBlockDevice` of the missing `qemu.go`
(§4.2): appends a virtio block device with thread-pool AIO, interface
"none", verbatim format, disable-modern flag from the nested-run flag
(expected output of `TestQemuAppendBlockDevice`). -/
def appendBlockDevice (q : Qemu) (devices : List Govmm.Device) (drive : Drive) :
    List Govmm.Device :=
  devices ++
    [Govmm.Device.block
      { driver := Govmm.DeviceDriver.VirtioBlock
      , id := drive.id
      , file := drive.file
      , aio := Govmm.BlockAIOKind.Threads
      , format := drive.format
      , interface := "none"
      , disableModern := q.nestedRun }]

/-- Modelled from the spec: `appendFSDevices` of the missing `qemu.go`
(§4.2): one filesystem-share device appended per declared volume, by the
single-Volume rule, in the order of the volume list. -/
def appendFSDevices (q : Qemu) (devices : List Govmm.Device) (podConfig : PodConfig) :
    List Govmm.Device :=
  podConfig.volumes.foldl (appendVolume q) devices

/-- Modelled from the spec: `appendConsoles` of the missing `qemu.go`
(§4.2): appends the serial controller device `"serial0"` and the console
character device `"console0"`/`"charconsole0"` backed by the pod's console
socket path (expected output of `TestQemuAppendConsoles`). -/
def appendConsoles (q : Qemu) (devices : List Govmm.Device) (podConfig : PodConfig) :
    List Govmm.Device :=
  devices ++
    [ Govmm.Device.serial
        { driver := Govmm.DeviceDriver.VirtioSerial
        , id := "serial0"
        , disableModern := q.nestedRun }
    , Govmm.Device.char
        { driver := Govmm.DeviceDriver.Console
        , backend := Govmm.CharBackend.Socket
        , deviceID := "console0"
        , id := "charconsole0"
        , path := getPodConsole podConfig.id } ]

/-- Modelled from the spec: the fixed maximum-memory offset constant
(`maxMemoryOffset`) of the missing `qemu.go` (§4.3); the spec fixes only
that it is a fixed constant, not its concrete value. -/
def maxMemoryOffset : Nat := 1024

/-- Modelled from the spec: `setMemoryResources` of the missing `qemu.go`
(§4.3), with the host memory-info collaborator (`totalPhysicalMemoryKb`,
§6) passed as its reading: the initial size string is `<memory>M`, the slot
count is the fixed constant 2, and the maximum-memory bound is host memory
converted from KiB to MiB plus the fixed offset, formatted `<value>M`; a
failed host reading propagates as an error. -/
def setMemoryResources (hostMemKb : Except String Nat) (podConfig : PodConfig) :
    Except String Govmm.Memory :=
  match hostMemKb with
  | Except.error e => Except.error e
  | Except.ok kb =>
      Except.ok
        { size := toString podConfig.vmConfig.memory ++ "M"
        , slots := 2
        , maxMem := toString (kb / 1024 + maxMemoryOffset) ++ "M" }

/-- The configuration persisted per pod: the `HypervisorConfig`, the resolved
hypervisor binary path and the computed kernel parameter sequence (§3,
"Persisted Configuration"). -/
structure PersistedState where
  config : HypervisorConfig
  path : String
  kernelParams : List String
  deriving Repr, DecidableEq

/-- The storage collaborator's visible state: the set of existing
directories and the persisted files keyed by path (§6, Storage). -/
structure StorageFS where
  dirs : List String := []
  files : List (String × PersistedState) := []
  deriving Repr, DecidableEq

/-- The pod's storage directory `<run-storage-root>/<pod-id>`. -/
def podDirPath (podID : String) : String :=
  runStoragePath ++ "/" ++ podID

/-- The persisted configuration file path
`<run-storage-root>/<pod-id>/hypervisor.json` (§6). -/
def hypervisorStatePath (podID : String) : String :=
  podDirPath podID ++ "/hypervisor.json"

/-- Modelled from the spec: the storage collaborator's read
(`read(podID) -> (config, found, error)`, §6): the persisted configuration
for the pod, when its file exists. -/
def fetchHypervisorState (fs : StorageFS) (podID : String) : Option PersistedState :=
  fs.files.lookup (hypervisorStatePath podID)

/-- Modelled from the spec: the storage collaborator's write
(`write(podID, config) -> error`, §6): fails when the pod's parent storage
directory does not exist (the write never creates it, §4.5); otherwise
records the file. -/
def storeHypervisorState (fs : StorageFS) (podID : String) (st : PersistedState) :
    Except String StorageFS :=
  if podDirPath podID ∈ fs.dirs then
    Except.ok { fs with files := (hypervisorStatePath podID, st) :: fs.files }
  else
    Except.error ("open " ++ hypervisorStatePath podID ++ ": no such file or directory")

/-- A pod: identifier and configuration, the fields of `Pod` used by
`qemu_test.go`. -/
structure Pod where
  id : String
  config : PodConfig
  deriving Repr, DecidableEq

/-- Modelled from the spec: `init` of the missing `qemu.go` (§4.5): read the
previously persisted configuration for the pod and load it when found;
otherwise build fresh from the pod's embedded `HypervisorConfig`, resolve
the hypervisor binary path, build the kernel parameter sequence, and persist
the result before returning; any failure is surfaced with the storage state
unchanged. -/
def qemuInit (q : Qemu) (pod : Pod) (fs : StorageFS) :
    (Except String Qemu) × StorageFS :=
  match fetchHypervisorState fs pod.id with
  | some st =>
      (Except.ok { q with config := st.config, path := st.path,
                          kernelParams := st.kernelParams }, fs)
  | none =>
      let config := pod.config.hypervisorConfig
      match buildKernelParams config with
      | Except.error e => (Except.error e, fs)
      | Except.ok ps =>
          match storeHypervisorState fs pod.id ⟨config, config.hypervisorPath, ps⟩ with
          | Except.error e => (Except.error e, fs)
          | Except.ok fs2 =>
              (Except.ok { q with config := config, path := config.hypervisorPath,
                                  kernelParams := ps }, fs2)

theorem joinWords_cons (w : String) (ws : List String) (h : ws ≠ []) :
    joinWords (w :: ws) = w ++ " " ++ joinWords ws := by
  cases ws with
  | nil => exact absurd rfl h
  | cons v vs => rfl

theorem joinWords_append (xs ys : List String) (hx : xs ≠ []) (hy : ys ≠ []) :
    joinWords (xs ++ ys) = joinWords xs ++ " " ++ joinWords ys := by
  induction xs with
  | nil => exact absurd rfl hx
  | cons w ws ih =>
    cases ws with
    | nil => exact joinWords_cons w ys hy
    | cons v vs =>
      have h₁ : (v :: vs : List String) ≠ [] := by simp
      have h₂ : (v :: vs) ++ ys ≠ [] := by simp
      calc joinWords ((w :: v :: vs) ++ ys)
          = joinWords (w :: ((v :: vs) ++ ys)) := by rw [List.cons_append]
        _ = w ++ " " ++ joinWords ((v :: vs) ++ ys) := joinWords_cons w _ h₂
        _ = w ++ " " ++ (joinWords (v :: vs) ++ " " ++ joinWords ys) := by rw [ih h₁]
        _ = (w ++ " " ++ joinWords (v :: vs)) ++ " " ++ joinWords ys := by
              simp [String.append_assoc]
        _ = joinWords (w :: v :: vs) ++ " " ++ joinWords ys := by
              rw [joinWords_cons w _ h₁]

theorem joinWords_base : joinWords qemuKernelParamsBase = testQemuKernelParamsBase := by
  rfl

theorem joinWords_nonDebug :
    joinWords qemuKernelParamsNonDebug = testQemuKernelParamsNonDebug := by
  rfl

theorem joinWords_debug :
    joinWords qemuKernelParamsDebug = testQemuKernelParamsDebug := by
  rfl

/-- C1. For every `HypervisorConfig`, `buildKernelParams` succeeds, and the
space-joined kernel parameter sequence equals the fixed base block, followed
by the quiet block when the debug flag is false or by the verbose block when
it is true, followed by the user-supplied parameters each rendered as
`key=value` in the order supplied (all space-joined). -/
theorem buildKernelParams_spec (config : HypervisorConfig) :
    ∃ ps, buildKernelParams config = Except.ok ps ∧
      joinWords ps =
        joinWords
          (testQemuKernelParamsBase
            :: (if config.debug then testQemuKernelParamsDebug
                else testQemuKernelParamsNonDebug)
            :: config.kernelParams.map renderParam) := by
  refine ⟨_, rfl, ?_⟩
  have hbase : qemuKernelParamsBase ≠ [] := by simp [qemuKernelParamsBase]
  have hblock :
      (if config.debug then qemuKernelParamsDebug else qemuKernelParamsNonDebug) ≠ [] := by
    cases config.debug <;> simp [qemuKernelParamsDebug, qemuKernelParamsNonDebug]
  have hblockJoin :
      joinWords (if config.debug then qemuKernelParamsDebug else qemuKernelParamsNonDebug)
        = (if config.debug then testQemuKernelParamsDebug else testQemuKernelParamsNonDebug) := by
    cases config.debug <;> simp [joinWords_debug, joinWords_nonDebug]
  cases hP : config.kernelParams.map renderParam with
  | nil =>
    rw [List.append_nil, joinWords_append _ _ hbase hblock, joinWords_base, hblockJoin]
    rfl
  | cons p ps =>
    have hcons : (p :: ps : List String) ≠ [] := by simp
    have hba : qemuKernelParamsBase
        ++ (if config.debug then qemuKernelParamsDebug else qemuKernelParamsNonDebug) ≠ [] := by
      simp [hbase]
    rw [joinWords_append _ _ hba hcons,
      joinWords_append _ _ hbase hblock, joinWords_base, hblockJoin,
      joinWords_cons testQemuKernelParamsBase _ (by simp),
      joinWords_cons _ _ hcons]
    simp [String.append_assoc]

/-- C2. `getMachine` returns, without error, a machine whose type equals the
input string exactly when the input is one of the three case-sensitive
values "pc", "pc-lite", "q35"; for every other input string it returns an
error. -/
theorem getMachine_spec (s : String) :
    ((s = "pc" ∨ s = "pc-lite" ∨ s = "q35") → getMachine s = Except.ok { type := s }) ∧
    (s ≠ "pc" → s ≠ "pc-lite" → s ≠ "q35" →
      getMachine s = Except.error ("unrecognised machine type: " ++ s)) := by
  constructor
  · rintro (rfl | rfl | rfl) <;> rfl
  · intro h1 h2 h3
    have e1 : (("pc-lite" : String) == s) = false := by
      simp only [beq_eq_false_iff_ne]
      exact fun h => h2 h.symm
    have e2 : (("pc" : String) == s) = false := by
      simp only [beq_eq_false_iff_ne]
      exact fun h => h1 h.symm
    have e3 : (("q35" : String) == s) = false := by
      simp only [beq_eq_false_iff_ne]
      exact fun h => h3 h.symm
    simp [getMachine, supportedQemuMachines, List.find?, e1, e2, e3]

/-- Witness for the C2 theorem at the concrete inputs "pc" and "PC". -/
theorem getMachine_spec_witness :
    getMachine "pc" = Except.ok { type := "pc" } ∧
    getMachine "PC" = Except.error ("unrecognised machine type: " ++ "PC") :=
  ⟨(getMachine_spec "pc").1 (Or.inl rfl),
   (getMachine_spec "PC").2 (by decide) (by decide) (by decide)⟩

/-- C3. The capabilities query reports block-device hotplug as supported
exactly when the configured machine type equals "pc", and never for an
unrecognized machine type. -/
theorem qemuCapabilities_spec (q : Qemu) :
    (q.capabilities.isBlockDeviceHotplugSupported = true ↔ q.machineType = "pc") ∧
    (q.machineType ∉ ["pc", "pc-lite", "q35"] →
      q.capabilities.isBlockDeviceHotplugSupported = false) := by
  constructor
  · by_cases h : q.machineType = "pc" <;>
      simp [Qemu.capabilities, Capabilities.isBlockDeviceHotplugSupported, h]
  · intro hnot
    have h : q.machineType ≠ "pc" := fun h => hnot (by simp [h])
    simp [Qemu.capabilities, Capabilities.isBlockDeviceHotplugSupported, h]

/-- Witness for the C3 theorem at the concrete unrecognized machine type
"bon". -/
theorem qemuCapabilities_spec_witness :
    ({ machineType := "bon" } : Qemu).capabilities.isBlockDeviceHotplugSupported = false :=
  (qemuCapabilities_spec { machineType := "bon" }).2 (by decide)

/-- C4. `appendVolume` returns the input list with exactly one
filesystem-share device appended at the end — driver virtio-9p, local
filesystem driver, ID `"extra-9p-" ++ tag`, the volume's path and mount tag,
security model none, disable-modern flag equal to the nested-run flag — and
leaves all prior entries unchanged. -/
theorem appendVolume_spec (q : Qemu) (devices : List Govmm.Device) (volume : Volume) :
    appendVolume q devices volume = devices ++
      [Govmm.Device.fs
        { driver := Govmm.DeviceDriver.Virtio9P
        , fsdriver := Govmm.FSDriverKind.Local
        , id := "extra-9p-" ++ volume.mountTag
        , path := volume.hostPath
        , mountTag := volume.mountTag
        , securityModel := Govmm.SecModel.None
        , disableModern := q.nestedRun }] ∧
    (appendVolume q devices volume).take devices.length = devices ∧
    (appendVolume q devices volume).length = devices.length + 1 := by
  refine ⟨rfl, ?_, by simp [appendVolume]⟩
  simp [appendVolume]

/-- C5. Every filesystem-share, block, or serial device produced by
`appendVolume`, `appendBlockDevice`, `appendSocket`, or `appendConsoles`
carries the disable-modern flag equal to the VM's nested-run flag (so the
flag is set uniformly under nested execution and absent otherwise; character
devices carry no such flag). -/
theorem nestedRun_disableModern_spec (q : Qemu) (devs : List Govmm.Device)
    (v : Volume) (s : Socket) (d : Drive) (p : PodConfig) :
    (((appendVolume q devs v).drop devs.length).all
        (fun dev => dev.disableModernFlag.all (fun b => b == q.nestedRun)) = true) ∧
    (((appendBlockDevice q devs d).drop devs.length).all
        (fun dev => dev.disableModernFlag.all (fun b => b == q.nestedRun)) = true) ∧
    (((appendSocket q devs s).drop devs.length).all
        (fun dev => dev.disableModernFlag.all (fun b => b == q.nestedRun)) = true) ∧
    (((appendConsoles q devs p).drop devs.length).all
        (fun dev => dev.disableModernFlag.all (fun b => b == q.nestedRun)) = true) := by
  refine ⟨?_, ?_, ?_, ?_⟩ <;>
    simp [appendVolume, appendBlockDevice, appendSocket, appendConsoles,
      fsDeviceOfVolume, Govmm.Device.disableModernFlag]

theorem foldl_appendVolume (q : Qemu) (vols : List Volume) (devs : List Govmm.Device) :
    vols.foldl (appendVolume q) devs = devs ++ vols.map (fsDeviceOfVolume q.nestedRun) := by
  induction vols generalizing devs with
  | nil => simp
  | cons v vs ih => simp [List.foldl_cons, appendVolume, ih]

/-- C6. `appendFSDevices` appends exactly one filesystem-share device per
declared volume, in the order of the volume list, each rendered by the
single-Volume rule; the container list has no effect on the devices
produced. -/
theorem appendFSDevices_spec (q : Qemu) (devs : List Govmm.Device) (pod : PodConfig) :
    appendFSDevices q devs pod = devs ++ pod.volumes.map (fsDeviceOfVolume q.nestedRun) ∧
    (appendFSDevices q devs pod).length = devs.length + pod.volumes.length ∧
    (∀ cs, appendFSDevices q devs { pod with containers := cs } =
      appendFSDevices q devs pod) := by
  refine ⟨foldl_appendVolume q pod.volumes devs, ?_, fun _ => rfl⟩
  rw [appendFSDevices, foldl_appendVolume]
  simp

/-- C7. `appendConsoles` appends exactly two devices regardless of container
count: the serial controller "serial0" and the console character device
"console0"/"charconsole0" whose backend path is `getPodConsole` of the pod
id, the pure composition `<run-storage-root>/<pod-id>/<default-console-name>`. -/
theorem appendConsoles_spec (q : Qemu) (devs : List Govmm.Device) (pod : PodConfig) :
    appendConsoles q devs pod = devs ++
      [ Govmm.Device.serial
          { driver := Govmm.DeviceDriver.VirtioSerial
          , id := "serial0"
          , disableModern := q.nestedRun }
      , Govmm.Device.char
          { driver := Govmm.DeviceDriver.Console
          , backend := Govmm.CharBackend.Socket
          , deviceID := "console0"
          , id := "charconsole0"
          , path := getPodConsole pod.id } ] ∧
    (appendConsoles q devs pod).length = devs.length + 2 ∧
    (∀ cs, appendConsoles q devs { pod with containers := cs } =
      appendConsoles q devs pod) ∧
    getPodConsole pod.id = runStoragePath ++ "/" ++ pod.id ++ "/" ++ defaultConsole :=
  ⟨rfl, by simp [appendConsoles], fun _ => rfl, rfl⟩

/-- C8. For a 1000 MiB memory request, `setMemoryResources` returns size
"1000M", slot count 2, and maximum memory `<hostMemMiB + offset>M` where
hostMemMiB is the host-info reading converted from KiB to MiB; a failed
host-info reading propagates as an error. -/
theorem setMemoryResources_spec :
    (∀ (hostKb : Nat) (pod : PodConfig), pod.vmConfig.memory = 1000 →
        setMemoryResources (Except.ok hostKb) pod =
          Except.ok { size := "1000M", slots := 2,
                      maxMem := toString (hostKb / 1024 + maxMemoryOffset) ++ "M" }) ∧
    (∀ (e : String) (pod : PodConfig),
        setMemoryResources (Except.error e) pod = Except.error e) := by
  constructor
  · intro hostKb pod h
    simp [setMemoryResources, h]
    rfl
  · intro e pod
    rfl

/-- Witness for the C8 theorem at the concrete host reading 2048000 KiB and
a 1000 MiB request. -/
theorem setMemoryResources_spec_witness :
    setMemoryResources (Except.ok 2048000) { vmConfig := { memory := 1000 } } =
      Except.ok { size := "1000M", slots := 2,
                  maxMem := toString ((2048000 : Nat) / 1024 + maxMemoryOffset) ++ "M" } :=
  setMemoryResources_spec.1 2048000 { vmConfig := { memory := 1000 } } rfl

/-- C9. `qemuInit` on a pod whose parent storage directory does not exist
fails with an error and performs no persisted write: the storage state is
unchanged, and if no persisted file existed before the call none exists
after it. -/
theorem qemuInit_missingParentDir_spec (q : Qemu) (pod : Pod) (fs : StorageFS)
    (hdir : podDirPath pod.id ∉ fs.dirs)
    (hfile : fetchHypervisorState fs pod.id = none) :
    (∃ e, (qemuInit q pod fs).1 = Except.error e) ∧
    (qemuInit q pod fs).2 = fs ∧
    fetchHypervisorState (qemuInit q pod fs).2 pod.id = none := by
  unfold qemuInit
  rw [hfile]
  simp [buildKernelParams, storeHypervisorState, hdir, hfile]

/-- Witness for the C9 theorem at a concrete pod and empty storage state. -/
theorem qemuInit_missingParentDir_spec_witness :
    (∃ e, (qemuInit {} ⟨"testPod", {}⟩ {}).1 = Except.error e) ∧
    (qemuInit {} ⟨"testPod", {}⟩ {}).2 = ({} : StorageFS) ∧
    fetchHypervisorState (qemuInit {} ⟨"testPod", {}⟩ {}).2 "testPod" = none :=
  qemuInit_missingParentDir_spec {} ⟨"testPod", {}⟩ {} (by decide) rfl

/-- C10. `qemuInit` on a pod with an existing parent storage directory and
no prior persisted state succeeds: the live configuration equals the input
`HypervisorConfig`, the resolved path equals the configured hypervisor
binary path, the kernel parameter sequence joins to the base block followed
by the non-debug block (for a non-debug configuration with no user
parameters), a persisted file is left behind, and a second `qemuInit` on the
same pod loads that configuration unchanged. -/
theorem qemuInit_fresh_spec (q : Qemu) (pod : Pod) (fs : StorageFS)
    (hdir : podDirPath pod.id ∈ fs.dirs)
    (hfile : fetchHypervisorState fs pod.id = none)
    (hdebug : pod.config.hypervisorConfig.debug = false)
    (hparams : pod.config.hypervisorConfig.kernelParams = []) :
    ∃ q2 fs2, qemuInit q pod fs = (Except.ok q2, fs2) ∧
      q2.config = pod.config.hypervisorConfig ∧
      q2.path = pod.config.hypervisorConfig.hypervisorPath ∧
      joinWords q2.kernelParams =
        testQemuKernelParamsBase ++ " " ++ testQemuKernelParamsNonDebug ∧
      fetchHypervisorState fs2 pod.id =
        some ⟨pod.config.hypervisorConfig,
              pod.config.hypervisorConfig.hypervisorPath, q2.kernelParams⟩ ∧
      qemuInit q2 pod fs2 = (Except.ok q2, fs2) := by
  refine ⟨{ q with
              config := pod.config.hypervisorConfig,
              path := pod.config.hypervisorConfig.hypervisorPath,
              kernelParams := qemuKernelParamsBase ++ qemuKernelParamsNonDebug },
          { fs with
              files := (hypervisorStatePath pod.id,
                ⟨pod.config.hypervisorConfig,
                 pod.config.hypervisorConfig.hypervisorPath,
                 qemuKernelParamsBase ++ qemuKernelParamsNonDebug⟩) :: fs.files },
          ?_, rfl, rfl, ?_, ?_, ?_⟩
  · unfold qemuInit
    rw [hfile]
    simp [buildKernelParams, hdebug, hparams, storeHypervisorState, hdir]
  · rw [joinWords_append _ _ (by simp [qemuKernelParamsBase])
      (by simp [qemuKernelParamsNonDebug]), joinWords_base, joinWords_nonDebug]
  · simp [fetchHypervisorState, List.lookup]
  · unfold qemuInit
    simp [fetchHypervisorState, List.lookup]

/-- Witness for the C10 theorem at a concrete pod, configuration and storage
state whose parent directory exists. -/
theorem qemuInit_fresh_spec_witness :
    ∃ q2 fs2,
      qemuInit {} ⟨"testPod", { hypervisorConfig := { hypervisorPath := "/usr/bin/qemu" } }⟩
          { dirs := [podDirPath "testPod"], files := [] } = (Except.ok q2, fs2) ∧
      q2.config = { hypervisorPath := "/usr/bin/qemu" } ∧
      q2.path = "/usr/bin/qemu" ∧
      joinWords q2.kernelParams =
        testQemuKernelParamsBase ++ " " ++ testQemuKernelParamsNonDebug ∧
      fetchHypervisorState fs2 "testPod" =
        some ⟨{ hypervisorPath := "/usr/bin/qemu" }, "/usr/bin/qemu", q2.kernelParams⟩ ∧
      qemuInit q2 ⟨"testPod", { hypervisorConfig := { hypervisorPath := "/usr/bin/qemu" } }⟩ fs2 =
        (Except.ok q2, fs2) :=
  qemuInit_fresh_spec {}
    ⟨"testPod", { hypervisorConfig := { hypervisorPath := "/usr/bin/qemu" } }⟩
    { dirs := [podDirPath "testPod"], files := [] } (by decide) rfl rfl rfl

end Virtcontainers
